import Mathlib

/-!
# Operation dispatch and validation layer of `image.go`

A shallow embedding of `src/image.go`.  Every Go function of the file becomes a
Lean function of the same name.  The collaborators the file calls but does not
define (the `bimg` engine, the AWS uploader, `encoding/json`, and the helpers
`BimgOptions`, `ImageType`, `GetImageMimeType` declared elsewhere in the
package) are fields of an environment `Env`, so every theorem holds for all of
their possible behaviours.  Side effects are recorded in a trace of `Event`s,
which makes "the engine was (not) invoked" a statement about the trace.
-/

namespace Imaginary

/-- Go `byte` / `uint8`. -/
abbrev Byte := Fin 256

/-- Go `[]byte`; the nil slice and the empty slice are both `[]`. -/
abbrev Bytes := List Byte

/-- Go `float32`, kept as its bit pattern: the file only copies such values. -/
structure GoFloat32 where
  bits : Nat
deriving DecidableEq, Repr

/-- Go `error` values that can reach this file.  `newError` is the package's
own `NewError(message, code)`, `errorsNew` is `errors.New(text)`, and
`external` is an error produced inside a collaborator library. -/
inductive GoError where
  | newError (message : String) (code : Nat)
  | errorsNew (text : String)
  | external (text : String)
deriving DecidableEq, Repr

/-- The `Error()` method of a Go error. -/
def GoError.Error : GoError → String
  | .newError message _ => message
  | .errorsNew text => text
  | .external text => text

/-- Modelled from the spec: `NewError` is declared outside `src/`; it builds the
package's structured error from a message and an error-kind code. -/
def NewError (err : String) (code : Nat) : GoError :=
  GoError.newError err code

/-- The value `recover()` reports for a panic, seen through the deferred
function of `Process`: `nil` (the panic was `panic(nil)`), an `error`, a
`string`, or a value of any other dynamic type. -/
inductive PanicValue where
  | nil
  | error (value : GoError)
  | string (value : String)
  | other (value : Int)
deriving DecidableEq, Repr

/-- Image stores an image binary buffer and its MIME type. -/
structure Image where
  Body : Bytes := []
  Mime : String := ""
deriving DecidableEq, Repr

/-- Save stores the details for saving an image to S3. -/
structure save where
  BucketName : String := ""
  ImageName : String := ""
deriving DecidableEq, Repr

/-- ImageInfo represents an image details and additional metadata. -/
structure ImageInfo where
  Width : Int
  Height : Int
  Type_ : String
  Space : String
  Alpha : Bool
  Profile : Bool
  Channels : Int
  Orientation : Int
deriving DecidableEq, Repr

/-- The part of `bimg.ImageMetadata` that `Info` reads (`Size` is flattened). -/
structure ImageMetadata where
  SizeWidth : Int
  SizeHeight : Int
  Type_ : String
  Space : String
  Alpha : Bool
  Profile : Bool
  Channels : Int
  Orientation : Int
deriving DecidableEq, Repr

/-- Modelled from the spec: the declaration of `ImageOptions` is outside `src/`;
these are the fields `image.go` reads from it. -/
structure ImageOptions where
  Width : Int := 0
  Height : Int := 0
  AreaWidth : Int := 0
  AreaHeight : Int := 0
  Rotate : Int := 0
  Top : Int := 0
  Left : Int := 0
  Margin : Int := 0
  Factor : Int := 0
  DPI : Int := 0
  TextWidth : Int := 0
  NoCrop : Bool := false
  NoReplicate : Bool := false
  Opacity : GoFloat32 := ⟨0⟩
  Text : String := ""
  Font : String := ""
  Type_ : String := ""
  Color : List Byte := []
  BucketName : String := ""
  ImageName : String := ""
deriving DecidableEq, Repr

/-- The `bimg.Color` triple. -/
structure Color where
  R : Byte := 0
  G : Byte := 0
  B : Byte := 0
deriving DecidableEq, Repr

/-- The `bimg.Watermark` sub-descriptor. -/
structure WatermarkOptions where
  Width : Int := 0
  DPI : Int := 0
  Margin : Int := 0
  Opacity : GoFloat32 := ⟨0⟩
  NoReplicate : Bool := false
  Text : String := ""
  Font : String := ""
  Background : Color := {}
deriving DecidableEq, Repr

/-- The transformation descriptor `bimg.Options`: the fields `image.go` writes,
and the two target dimensions. -/
structure Options where
  Height : Int := 0
  Width : Int := 0
  AreaHeight : Int := 0
  AreaWidth : Int := 0
  Top : Int := 0
  Left : Int := 0
  Zoom : Int := 0
  Crop : Bool := false
  Enlarge : Bool := false
  Embed : Bool := false
  Flip : Bool := false
  Flop : Bool := false
  Watermark : WatermarkOptions := {}
deriving DecidableEq, Repr

/-- How a call into a collaborator ends: it returns, or it panics. -/
inductive Call (α : Type) where
  | returned (val : α)
  | panicked (v : PanicValue)
deriving DecidableEq, Repr

/-- What the AWS code inside `uploadToS3` does: `session.Must` panics when no
session can be made, `uploader.Upload` returns an error, or the upload works. -/
inductive S3Outcome where
  | sessionFailed (err : GoError)
  | uploadFailed (err : GoError)
  | uploaded
deriving DecidableEq, Repr

/-- The collaborators of `image.go`. -/
structure Env where
  /-- The error-kind constant `BadRequest`. -/
  BadRequest : Nat
  /-- The generic descriptor builder `BimgOptions`. -/
  BimgOptions : ImageOptions → Options
  /-- The format lookup `ImageType`. -/
  ImageType : String → Nat
  /-- The tag `bimg.UNKNOWN`. -/
  UNKNOWN : Nat
  /-- The MIME lookup `GetImageMimeType`. -/
  GetImageMimeType : Nat → String
  /-- The engine `bimg.Resize`. -/
  bimgResize : Bytes → Options → Call (Except GoError Bytes)
  /-- The engine's `bimg.Metadata`. -/
  bimgMetadata : Bytes → Call (Except GoError ImageMetadata)
  /-- The engine's `bimg.DetermineImageType`. -/
  bimgDetermineImageType : Bytes → Nat
  /-- The serializer `json.Marshal` on `ImageInfo`. -/
  jsonMarshal : ImageInfo → Bytes
  /-- The sniffer `http.DetectContentType`. -/
  DetectContentType : Bytes → String
  /-- The AWS session and uploader, by bucket, key, body and content type. -/
  s3 : String → String → Bytes → String → S3Outcome

/-- An observable side effect of the file. -/
inductive Event where
  | println (args : List String)
  | printf (format : String) (args : List String)
  | stderr (format : String) (args : List String)
  | metadata (buf : Bytes)
  | engine (buf : Bytes) (opts : Options)
  | uploadToS3 (bucketName fileName : String) (buf : Bytes)
  | s3Upload (bucket key : String) (body : Bytes) (contentType : String)
  | exit (code : Int)
deriving DecidableEq, Repr

/-- How a function of the file ends: it returns a value, a panic leaves it, or
the process has exited. -/
inductive Outcome (α : Type) where
  | returned (val : α)
  | panicked (v : PanicValue)
  | exited (code : Int)
deriving DecidableEq, Repr

/-- One execution: the side effects in order, and how it ended. -/
structure Run (α : Type) where
  trace : List Event
  outcome : Outcome α
deriving DecidableEq, Repr

/-- The Go result pair `(Image, error)`; `none` is the nil error. -/
abbrev Result := Image × Option GoError

/-- The run `r` preceded by the side effects `evs`. -/
def Run.after {α : Type} (evs : List Event) (r : Run α) : Run α :=
  { trace := evs ++ r.trace, outcome := r.outcome }

/-- A validation failure: `return Image{}, NewError(msg, BadRequest)`. -/
def reject (env : Env) (msg : String) : Run Result :=
  { trace := [], outcome := .returned ({}, some (NewError msg env.BadRequest)) }

/-- The text `fmt.Println` writes for a `save` value. -/
def save.format (s : save) : String :=
  "\x7b" ++ s.BucketName ++ " " ++ s.ImageName ++ "\x7d"

/-- The persistence directive every operation builds from the options. -/
def buildSave (o : ImageOptions) : save :=
  let s : save := {}
  if o.BucketName ≠ "" ∧ o.ImageName ≠ "" then
    { s with BucketName := o.BucketName, ImageName := o.ImageName }
  else s

def exitErrorf (msg : String) (args : List String) : Run Unit :=
  { trace := [.stderr (msg ++ "\n") args, .exit 1], outcome := .exited 1 }

def uploadToS3 (env : Env) (bucketName fileName : String) (buf : Bytes) : Run Unit :=
  let fileType := env.DetectContentType buf
  let call := Event.uploadToS3 bucketName fileName buf
  match env.s3 bucketName fileName buf fileType with
  | .sessionFailed err => { trace := [call], outcome := .panicked (.error err) }
  | .uploadFailed err =>
    Run.after [call, .s3Upload bucketName fileName buf fileType]
      (exitErrorf "Unable to upload %q to %q, %v" [fileName, bucketName, err.Error])
  | .uploaded =>
    { trace := [call, .s3Upload bucketName fileName buf fileType,
        .printf "Successfully uploaded %q to %q\n" [fileName, bucketName]],
      outcome := .returned () }

/-- The body of `Process`, before its deferred function runs. -/
def processBody (env : Env) (buf : Bytes) (opts : Options) (sv : save) : Run Result :=
  match env.bimgResize buf opts with
  | .panicked v => { trace := [.engine buf opts], outcome := .panicked v }
  | .returned (.error err) =>
    { trace := [.engine buf opts], outcome := .returned ({}, some err) }
  | .returned (.ok out) =>
    let pre := [Event.engine buf opts, Event.println [sv.format]]
    let mime := env.GetImageMimeType (env.bimgDetermineImageType out)
    if sv.BucketName ≠ "" ∧ sv.ImageName ≠ "" then
      let up := uploadToS3 env sv.BucketName sv.ImageName out
      match up.outcome with
      | .returned _ =>
        { trace := pre ++ up.trace, outcome := .returned ({ Body := out, Mime := mime }, none) }
      | .panicked v => { trace := pre ++ up.trace, outcome := .panicked v }
      | .exited code => { trace := pre ++ up.trace, outcome := .exited code }
    else
      { trace := pre, outcome := .returned ({ Body := out, Mime := mime }, none) }

/-- The type switch of the deferred function of `Process`; a nil interface
value matches neither `error` nor `string` and takes the default branch. -/
def recovered : PanicValue → GoError
  | .error value => value
  | .string value => .errorsNew value
  | .other _ => .errorsNew "libvips internal error"
  | .nil => .errorsNew "libvips internal error"

/-- The deferred function of `Process`, on the value `r` that `recover()`
reports: `if r != nil` it sets `err` by the type switch and `out = Image{}`,
and otherwise it leaves the named results as they are.  At both places where
the body can panic (inside `bimg.Resize`, inside `uploadToS3`) the named
results are still the zero `Image` and the nil error. -/
def deferred (r : PanicValue) : Result :=
  if r ≠ .nil then ({}, some (recovered r)) else ({}, none)

def Process (env : Env) (buf : Bytes) (opts : Options) (sv : save) : Run Result :=
  let r := processBody env buf opts sv
  match r.outcome with
  | .panicked v => { trace := r.trace, outcome := .returned (deferred v) }
  | .returned val => { trace := r.trace, outcome := .returned val }
  | .exited code => { trace := r.trace, outcome := .exited code }

def Info (env : Env) (buf : Bytes) (_o : ImageOptions) : Run Result :=
  let image : Image := { Mime := "application/json" }
  match env.bimgMetadata buf with
  | .panicked v => { trace := [.metadata buf], outcome := .panicked v }
  | .returned (.error err) =>
    { trace := [.metadata buf],
      outcome := .returned (image,
        some (NewError ("Cannot retrieve image medatata: %s" ++ err.Error) env.BadRequest)) }
  | .returned (.ok md) =>
    let info : ImageInfo :=
      { Width := md.SizeWidth, Height := md.SizeHeight, Type_ := md.Type_, Space := md.Space,
        Alpha := md.Alpha, Profile := md.Profile, Channels := md.Channels,
        Orientation := md.Orientation }
    let body := env.jsonMarshal info
    { trace := [.metadata buf], outcome := .returned ({ image with Body := body }, none) }

def Resize (env : Env) (buf : Bytes) (o : ImageOptions) : Run Result :=
  if o.Width = 0 ∧ o.Height = 0 then
    reject env "Missing required param: height or width"
  else
    let opts := env.BimgOptions o
    let opts := { opts with Embed := true }
    let opts := if o.NoCrop = false then { opts with Crop := true } else opts
    Run.after
      [.println ["Bucket Name - ", o.BucketName], .println [o.BucketName], .println [o.ImageName]]
      (Process env buf opts (buildSave o))

def Enlarge (env : Env) (buf : Bytes) (o : ImageOptions) : Run Result :=
  if o.Width = 0 ∨ o.Height = 0 then
    reject env "Missing required params: height, width"
  else
    let opts := env.BimgOptions o
    let opts := { opts with Enlarge := true }
    let opts := if o.NoCrop = false then { opts with Crop := true } else opts
    Process env buf opts (buildSave o)

def Extract (env : Env) (buf : Bytes) (o : ImageOptions) : Run Result :=
  if o.AreaWidth = 0 ∨ o.AreaHeight = 0 then
    reject env "Missing required params: areawidth or areaheight"
  else
    let opts := env.BimgOptions o
    let opts := { opts with Top := o.Top, Left := o.Left, AreaWidth := o.AreaWidth,
                            AreaHeight := o.AreaHeight }
    Process env buf opts (buildSave o)

def Crop (env : Env) (buf : Bytes) (o : ImageOptions) : Run Result :=
  if o.Width = 0 ∧ o.Height = 0 then
    reject env "Missing required param: height or width"
  else
    let opts := env.BimgOptions o
    let opts := { opts with Crop := true }
    Process env buf opts (buildSave o)

def Rotate (env : Env) (buf : Bytes) (o : ImageOptions) : Run Result :=
  if o.Rotate = 0 then
    reject env "Missing required param: rotate"
  else
    let opts := env.BimgOptions o
    Process env buf opts (buildSave o)

def Flip (env : Env) (buf : Bytes) (o : ImageOptions) : Run Result :=
  let opts := env.BimgOptions o
  let opts := { opts with Flip := true }
  Process env buf opts (buildSave o)

def Flop (env : Env) (buf : Bytes) (o : ImageOptions) : Run Result :=
  let opts := env.BimgOptions o
  let opts := { opts with Flop := true }
  Process env buf opts (buildSave o)

def Thumbnail (env : Env) (buf : Bytes) (o : ImageOptions) : Run Result :=
  if o.Width = 0 ∧ o.Height = 0 then
    reject env "Missing required params: width or height"
  else
    Process env buf (env.BimgOptions o) (buildSave o)

def Zoom (env : Env) (buf : Bytes) (o : ImageOptions) : Run Result :=
  if o.Factor = 0 then
    reject env "Missing required param: factor"
  else
    let opts := env.BimgOptions o
    if o.Top > 0 ∨ o.Left > 0 then
      if o.AreaWidth = 0 ∧ o.AreaHeight = 0 then
        reject env "Missing required params: areawidth, areaheight"
      else
        let opts := { opts with Top := o.Top, Left := o.Left, AreaWidth := o.AreaWidth,
                                AreaHeight := o.AreaHeight }
        let opts := if o.NoCrop = false then { opts with Crop := true } else opts
        let opts := { opts with Zoom := o.Factor }
        Process env buf opts (buildSave o)
    else
      let opts := { opts with Zoom := o.Factor }
      Process env buf opts (buildSave o)

def Convert (env : Env) (buf : Bytes) (o : ImageOptions) : Run Result :=
  if o.Type_ = "" then
    reject env "Missing required param: type"
  else if env.ImageType o.Type_ = env.UNKNOWN then
    reject env ("Invalid image type: " ++ o.Type_)
  else
    let opts := env.BimgOptions o
    Process env buf opts (buildSave o)

def Watermark (env : Env) (buf : Bytes) (o : ImageOptions) : Run Result :=
  if o.Text = "" then
    reject env "Missing required param: text"
  else
    let opts := env.BimgOptions o
    let wm := { opts.Watermark with DPI := o.DPI, Text := o.Text, Font := o.Font,
                                    Margin := o.Margin, Width := o.TextWidth,
                                    Opacity := o.Opacity, NoReplicate := o.NoReplicate }
    let wm := if h : o.Color.length > 2 then
        { wm with Background := { R := o.Color[0], G := o.Color[1], B := o.Color[2] } }
      else wm
    let opts := { opts with Watermark := wm }
    Process env buf opts (buildSave o)

/-! ## Observations on a run -/

/-- Whether an event is a call into the image engine (`bimg.Resize` or
`bimg.Metadata`). -/
def Event.isEngineCall : Event → Bool
  | .engine _ _ => true
  | .metadata _ => true
  | _ => false

/-- The calls into the image engine made during a run, in order. -/
def engineInvocations (tr : List Event) : List Event :=
  tr.filter Event.isEngineCall

/-- The calls of `uploadToS3` made during a run, in order, each as
(bucket, object name, buffer). -/
def uploadInvocations (tr : List Event) : List (String × String × Bytes) :=
  tr.filterMap fun e =>
    match e with
    | .uploadToS3 bucketName fileName buf => some (bucketName, fileName, buf)
    | _ => none

/-- The run returned the zero `Image` together with a `BadRequest` error. -/
def Run.isBadRequest (env : Env) (r : Run Result) : Prop :=
  ∃ msg, r.outcome = .returned ({}, some (NewError msg env.BadRequest))

/-- The run failed validation: a `BadRequest` error and no engine call. -/
def Run.rejected (env : Env) (r : Run Result) : Prop :=
  r.isBadRequest env ∧ engineInvocations r.trace = []

/-- The run is a call of `Process` on the caller's buffer, with the persistence
directive built from the options, after side effects that do not touch the
engine; the engine is then invoked exactly once, on that buffer. -/
def Run.delegated (env : Env) (buf : Bytes) (o : ImageOptions) (r : Run Result) : Prop :=
  ∃ pre opts, engineInvocations pre = [] ∧
    r = Run.after pre (Process env buf opts (buildSave o)) ∧
    engineInvocations r.trace = [Event.engine buf opts]

/-- The validation contract of an operation: on the inputs where `bad` holds the
run is rejected, and on all other inputs it is delegated to `Process`. -/
def Validates (op : Env → Bytes → ImageOptions → Run Result) (env : Env) (buf : Bytes)
    (o : ImageOptions) (bad : Prop) : Prop :=
  ((op env buf o).rejected env ↔ bad) ∧ ((op env buf o).delegated env buf o ↔ ¬ bad)

/-- Whenever the run returns a non-nil error, the Image returned with it is the
zero value. -/
def Run.errorImpliesZero (r : Run Result) : Prop :=
  ∀ img err, r.outcome = .returned (img, some err) → img = {}

/-- The output buffer of the transform engine during a run: defined when the
run made exactly one engine call, `bimg.Resize`, and that call succeeded. -/
def engineOutput (env : Env) (tr : List Event) : Option Bytes :=
  match engineInvocations tr with
  | [.engine buf opts] =>
    match env.bimgResize buf opts with
    | .returned (.ok out) => some out
    | _ => none
  | _ => none

/-- The uploads a run must make: one, of the engine's output under the given
bucket and object name, when the engine succeeded and both names are non-empty,
and none otherwise. -/
def expectedUploads (env : Env) (o : ImageOptions) (tr : List Event) :
    List (String × String × Bytes) :=
  match engineOutput env tr with
  | some out =>
    if o.BucketName ≠ "" ∧ o.ImageName ≠ "" then [(o.BucketName, o.ImageName, out)] else []
  | none => []

/-- The options with neither bucket nor object name set. -/
def ImageOptions.withoutSave (o : ImageOptions) : ImageOptions :=
  { o with BucketName := "", ImageName := "" }

/-- The operations that build a persistence directive: all but `Info`. -/
def persistenceOps : List (Env → Bytes → ImageOptions → Run Result) :=
  [Resize, Enlarge, Extract, Crop, Rotate, Flip, Flop, Thumbnail, Zoom, Convert, Watermark]

/-- The calls of the transform engine `bimg.Resize` made during a run, in
order. -/
def transformInvocations (tr : List Event) : List Event :=
  tr.filter fun e =>
    match e with
    | .engine _ _ => true
    | _ => false

/-- The message of the error a run returned, when it returned one. -/
def Run.errorMessage (r : Run Result) : Option String :=
  match r.outcome with
  | .returned (_, some err) => some err.Error
  | _ => none

/-- The upload of `out` under the directive `sv`, if there is one, returns:
either the directive is absent, or the store accepts the upload. -/
def uploadReturns (env : Env) (sv : save) (out : Bytes) : Prop :=
  ¬ (sv.BucketName ≠ "" ∧ sv.ImageName ≠ "") ∨
    env.s3 sv.BucketName sv.ImageName out (env.DetectContentType out) = .uploaded

/-- The run called the engine exactly once, on `buf`, with a descriptor whose
width and height are those of the options. -/
def Run.handsDimensions (buf : Bytes) (o : ImageOptions) (r : Run Result) : Prop :=
  ∃ d, engineInvocations r.trace = [Event.engine buf d] ∧
    d.Width = o.Width ∧ d.Height = o.Height

/-- A concrete environment for evaluating the operations: the engine, the
metadata reader and the store each answer every call with the given outcome;
the toy serializer writes the record's width and height as two bytes. -/
def sampleEnv (engine : Call (Except GoError Bytes))
    (metadata : Call (Except GoError ImageMetadata)) (store : S3Outcome) : Env :=
  { BadRequest := 1
    BimgOptions := fun o => { Width := o.Width, Height := o.Height }
    ImageType := fun t => if t = "jpeg" then 1 else 0
    UNKNOWN := 0
    GetImageMimeType := fun t => if t = 1 then "image/jpeg" else "image/unknown"
    bimgResize := fun _ _ => engine
    bimgMetadata := fun _ => metadata
    bimgDetermineImageType := fun _ => 1
    jsonMarshal := fun info =>
      [⟨info.Width.toNat % 256, Nat.mod_lt _ (by decide)⟩,
        ⟨info.Height.toNat % 256, Nat.mod_lt _ (by decide)⟩]
    DetectContentType := fun _ => "image/jpeg"
    s3 := fun _ _ _ _ => store }

/-! ## The execution boundary -/

theorem engineInvocations_Process (env : Env) (buf : Bytes) (opts : Options) (sv : save) :
    engineInvocations (Process env buf opts sv).trace = [Event.engine buf opts] := by
  cases h : env.bimgResize buf opts with
  | panicked v => simp [Process, processBody, h, engineInvocations, Event.isEngineCall]
  | returned x =>
    cases x with
    | error err => simp [Process, processBody, h, engineInvocations, Event.isEngineCall]
    | ok out =>
      by_cases hs : sv.BucketName ≠ "" ∧ sv.ImageName ≠ ""
      · cases h3 : env.s3 sv.BucketName sv.ImageName out (env.DetectContentType out) <;>
          simp [Process, processBody, h, hs, uploadToS3, h3, engineInvocations,
            Event.isEngineCall, Run.after, exitErrorf]
      · simp [Process, processBody, h, hs, engineInvocations, Event.isEngineCall]

theorem engineInvocations_after (pre : List Event) (r : Run Result)
    (hpre : engineInvocations pre = []) :
    engineInvocations (Run.after pre r).trace = engineInvocations r.trace := by
  unfold engineInvocations at *
  simp [Run.after, List.filter_append, hpre]

theorem rejected_reject (env : Env) (msg : String) : (reject env msg).rejected env :=
  ⟨⟨msg, rfl⟩, rfl⟩

theorem delegated_not_rejected (env : Env) (buf : Bytes) (o : ImageOptions) (r : Run Result)
    (h : r.delegated env buf o) : ¬ r.rejected env := by
  obtain ⟨pre, opts, -, -, hcall⟩ := h
  rintro ⟨-, hno⟩
  rw [hcall] at hno
  cases hno

/-- An operation that rejects on `bad` and otherwise runs `Process` meets the
validation contract. -/
theorem validates_of (op : Env → Bytes → ImageOptions → Run Result) (env : Env) (buf : Bytes)
    (o : ImageOptions) (bad : Prop) (hbad : bad → (op env buf o).rejected env)
    (hgood : ¬ bad → (op env buf o).delegated env buf o) : Validates op env buf o bad := by
  constructor
  · constructor
    · intro hr
      by_contra hb
      exact delegated_not_rejected env buf o _ (hgood hb) hr
    · exact hbad
  · constructor
    · intro hd hb
      exact delegated_not_rejected env buf o _ hd (hbad hb)
    · exact hgood

theorem delegated_after_Process (env : Env) (buf : Bytes) (o : ImageOptions) (opts : Options)
    (pre : List Event) (hpre : engineInvocations pre = []) :
    (Run.after pre (Process env buf opts (buildSave o))).delegated env buf o :=
  ⟨pre, opts, hpre, rfl, by rw [engineInvocations_after pre _ hpre, engineInvocations_Process]⟩

theorem delegated_Process (env : Env) (buf : Bytes) (o : ImageOptions) (opts : Options) :
    (Process env buf opts (buildSave o)).delegated env buf o :=
  delegated_after_Process env buf o opts [] rfl

/-! ## Validation rules of the operations -/

/-- C1: Resize, Crop and Thumbnail each return the zero Image with a BadRequest
error, without any engine call, exactly when width = 0 and height = 0; on every
other input the call is delegated to Process. -/
theorem dimension_ops_validate (env : Env) (buf : Bytes) (o : ImageOptions) :
    Validates Resize env buf o (o.Width = 0 ∧ o.Height = 0) ∧
    Validates Crop env buf o (o.Width = 0 ∧ o.Height = 0) ∧
    Validates Thumbnail env buf o (o.Width = 0 ∧ o.Height = 0) := by
  refine ⟨?_, ?_, ?_⟩ <;> apply validates_of
  · intro h
    simp only [Resize, h, and_self, if_true]
    exact rejected_reject env _
  · intro h
    simp only [Resize, h, if_false]
    apply delegated_after_Process
    simp [engineInvocations, Event.isEngineCall]
  · intro h
    simp only [Crop, h, and_self, if_true]
    exact rejected_reject env _
  · intro h
    simp only [Crop, h, if_false]
    exact delegated_Process env buf o _
  · intro h
    simp only [Thumbnail, h, and_self, if_true]
    exact rejected_reject env _
  · intro h
    simp only [Thumbnail, h, if_false]
    exact delegated_Process env buf o _

/-- C2: Enlarge returns the zero Image with a BadRequest error, without any
engine call, exactly when width = 0 or height = 0; otherwise it is delegated to
Process. -/
theorem Enlarge_validates (env : Env) (buf : Bytes) (o : ImageOptions) :
    Validates Enlarge env buf o (o.Width = 0 ∨ o.Height = 0) := by
  apply validates_of
  · intro h
    simp only [Enlarge, h, if_true]
    exact rejected_reject env _
  · intro h
    simp only [Enlarge, h, if_false]
    exact delegated_Process env buf o _

/-- C3: Extract returns the zero Image with a BadRequest error, without any
engine call, exactly when area-width = 0 or area-height = 0; otherwise it is
delegated to Process. -/
theorem Extract_validates (env : Env) (buf : Bytes) (o : ImageOptions) :
    Validates Extract env buf o (o.AreaWidth = 0 ∨ o.AreaHeight = 0) := by
  apply validates_of
  · intro h
    simp only [Extract, h, if_true]
    exact rejected_reject env _
  · intro h
    simp only [Extract, h, if_false]
    exact delegated_Process env buf o _

/-- C4 (evaluation of the code where the claim fails): with factor = 2, top = 5,
area-width = 0 and area-height = 10 the area is not complete, yet Zoom is not
rejected: it calls the engine once, with the zero area-width copied into the
descriptor. -/
theorem Zoom_partial_area_reaches_engine (env : Env) (buf : Bytes) :
    ¬ (Zoom env buf { Factor := 2, Top := 5, AreaHeight := 10 }).rejected env ∧
    engineInvocations (Zoom env buf { Factor := 2, Top := 5, AreaHeight := 10 }).trace =
      [Event.engine buf
        { env.BimgOptions { Factor := 2, Top := 5, AreaHeight := 10 } with
          Top := 5, Left := 0, AreaWidth := 0, AreaHeight := 10, Crop := true, Zoom := 2 }] := by
  have hz : Zoom env buf { Factor := 2, Top := 5, AreaHeight := 10 } =
      Process env buf
        { env.BimgOptions { Factor := 2, Top := 5, AreaHeight := 10 } with
          Top := 5, Left := 0, AreaWidth := 0, AreaHeight := 10, Crop := true, Zoom := 2 }
        (buildSave { Factor := 2, Top := 5, AreaHeight := 10 }) := by
    simp [Zoom]
  rw [hz]
  exact ⟨delegated_not_rejected env buf _ _ (delegated_Process env buf _ _),
    engineInvocations_Process env buf _ _⟩

/-- C5: Zoom returns the zero Image with a BadRequest error, without any engine
call, whenever factor = 0, and whenever factor ≠ 0, top > 0 or left > 0, and
area-width = area-height = 0; these are the only rejected inputs, every other
one is delegated to Process. -/
theorem Zoom_validates (env : Env) (buf : Bytes) (o : ImageOptions) :
    Validates Zoom env buf o
      (o.Factor = 0 ∨
        (o.Factor ≠ 0 ∧ (o.Top > 0 ∨ o.Left > 0) ∧ o.AreaWidth = 0 ∧ o.AreaHeight = 0)) := by
  apply validates_of
  · rintro (h | ⟨hf, hoff, hw, hh⟩)
    · simp only [Zoom, h, if_true]
      exact rejected_reject env _
    · simp only [Zoom, hf, hoff, hw, hh, and_self, if_true, if_false]
      exact rejected_reject env _
  · intro h
    have hf : o.Factor ≠ 0 := fun hf => h (Or.inl hf)
    by_cases hoff : o.Top > 0 ∨ o.Left > 0
    · have ha : ¬ (o.AreaWidth = 0 ∧ o.AreaHeight = 0) :=
        fun ha => h (Or.inr ⟨hf, hoff, ha.1, ha.2⟩)
      simp only [Zoom, hf, hoff, ha, if_true, if_false]
      exact delegated_Process env buf o _
    · simp only [Zoom, hf, hoff, if_false]
      exact delegated_Process env buf o _

/-- C6: Convert returns the zero Image with a BadRequest error, without any
engine call, when the target type is empty or ImageType maps it to UNKNOWN; for
every other type validation passes and the call is delegated to Process. -/
theorem Convert_validates (env : Env) (buf : Bytes) (o : ImageOptions) :
    Validates Convert env buf o (o.Type_ = "" ∨ env.ImageType o.Type_ = env.UNKNOWN) := by
  apply validates_of
  · intro h
    by_cases ht : o.Type_ = ""
    · simp only [Convert, ht, if_true]
      exact rejected_reject env _
    · have hu : env.ImageType o.Type_ = env.UNKNOWN := h.resolve_left ht
      simp only [Convert, ht, hu, if_true, if_false]
      exact rejected_reject env _
  · intro h
    have ht : ¬ o.Type_ = "" := fun ht => h (Or.inl ht)
    have hu : ¬ env.ImageType o.Type_ = env.UNKNOWN := fun hu => h (Or.inr hu)
    simp only [Convert, ht, hu, if_false]
    exact delegated_Process env buf o _

/-- C7: Watermark returns the zero Image with a BadRequest error, without any
engine call, exactly when the watermark text is empty; otherwise it is delegated
to Process. -/
theorem Watermark_validates (env : Env) (buf : Bytes) (o : ImageOptions) :
    Validates Watermark env buf o (o.Text = "") := by
  apply validates_of
  · intro h
    simp only [Watermark, h, if_true]
    exact rejected_reject env _
  · intro h
    simp only [Watermark, h, if_false]
    exact delegated_Process env buf o _

/-- C8: Rotate returns the zero Image with a BadRequest error, without any
engine call, exactly when the rotation angle is 0; otherwise it is delegated to
Process. -/
theorem Rotate_validates (env : Env) (buf : Bytes) (o : ImageOptions) :
    Validates Rotate env buf o (o.Rotate = 0) := by
  apply validates_of
  · intro h
    simp only [Rotate, h, if_true]
    exact rejected_reject env _
  · intro h
    simp only [Rotate, h, if_false]
    exact delegated_Process env buf o _

/-! ## Error results -/

theorem deferred_fst (v : PanicValue) : (deferred v).1 = {} := by
  unfold deferred
  split_ifs <;> rfl

theorem errorImpliesZero_Process (env : Env) (buf : Bytes) (opts : Options) (sv : save) :
    (Process env buf opts sv).errorImpliesZero := by
  intro img err
  cases h : env.bimgResize buf opts with
  | panicked v =>
    simp only [Process, processBody, h]
    intro he
    have hz := deferred_fst v
    rw [Outcome.returned.inj he] at hz
    exact hz
  | returned x =>
    cases x with
    | error e =>
      simp only [Process, processBody, h]
      intro he
      cases he
      rfl
    | ok out =>
      by_cases hs : sv.BucketName ≠ "" ∧ sv.ImageName ≠ ""
      · cases h3 : env.s3 sv.BucketName sv.ImageName out (env.DetectContentType out) <;>
          simp [Process, processBody, h, hs, uploadToS3, h3, Run.after, exitErrorf, deferred]
        intro hi _
        exact hi.symm
      · simp [Process, processBody, h, hs]

theorem errorImpliesZero_reject (env : Env) (msg : String) :
    (reject env msg).errorImpliesZero := by
  intro img err he
  simp only [reject] at he
  cases he
  rfl

theorem errorImpliesZero_after (pre : List Event) (r : Run Result) (h : r.errorImpliesZero) :
    (Run.after pre r).errorImpliesZero :=
  fun img err he => h img err he

/-- C9 (counterexample): when metadata extraction fails, Info returns a non-nil
error together with an Image whose Mime is "application/json", which is not the
zero Image. -/
theorem Info_error_with_nonzero_image :
    (Info (sampleEnv (.returned (.ok [])) (.returned (.error (.external "no image"))) .uploaded)
        [] {}).outcome =
      .returned ({ Body := [], Mime := "application/json" },
        some (NewError "Cannot retrieve image medatata: %sno image" 1)) ∧
    ¬ (Info (sampleEnv (.returned (.ok [])) (.returned (.error (.external "no image"))) .uploaded)
        [] {}).errorImpliesZero := by
  refine ⟨by decide, ?_⟩
  intro h
  have hz := h { Body := [], Mime := "application/json" }
    (NewError "Cannot retrieve image medatata: %sno image" 1) (by decide)
  exact absurd hz (by decide)

/-- C9 (amended): every operation that runs through validation and Process
(Resize, Enlarge, Extract, Crop, Rotate, Flip, Flop, Thumbnail, Zoom, Convert,
Watermark) returns the zero Image whenever it returns a non-nil error; Info,
when metadata extraction fails with an error, returns a BadRequest error
together with the Image with empty body and content type "application/json",
and that is the only Image Info ever returns with a non-nil error. -/
theorem error_results (env : Env) (buf : Bytes) (o : ImageOptions) :
    (∀ e, env.bimgMetadata buf = .returned (.error e) →
      (Info env buf o).outcome =
        .returned ({ Body := [], Mime := "application/json" },
          some (NewError ("Cannot retrieve image medatata: %s" ++ e.Error) env.BadRequest))) ∧
    (∀ img err, (Info env buf o).outcome = .returned (img, some err) →
      img = { Body := [], Mime := "application/json" }) ∧
    (Resize env buf o).errorImpliesZero ∧
    (Enlarge env buf o).errorImpliesZero ∧
    (Extract env buf o).errorImpliesZero ∧
    (Crop env buf o).errorImpliesZero ∧
    (Rotate env buf o).errorImpliesZero ∧
    (Flip env buf o).errorImpliesZero ∧
    (Flop env buf o).errorImpliesZero ∧
    (Thumbnail env buf o).errorImpliesZero ∧
    (Zoom env buf o).errorImpliesZero ∧
    (Convert env buf o).errorImpliesZero ∧
    (Watermark env buf o).errorImpliesZero := by
  refine ⟨?_, ?_, ?_, ?_, ?_, ?_, ?_, ?_, ?_, ?_, ?_, ?_, ?_⟩
  · intro e h
    simp [Info, h]
  · intro img err
    cases h : env.bimgMetadata buf with
    | panicked v => simp [Info, h]
    | returned x =>
      cases x with
      | error e =>
        simp only [Info, h]
        intro he
        cases he
        rfl
      | ok md => simp [Info, h]
  · unfold Resize
    split_ifs <;>
      first
      | exact errorImpliesZero_reject env _
      | exact errorImpliesZero_after _ _ (errorImpliesZero_Process env buf _ _)
  · unfold Enlarge
    split_ifs <;>
      first
      | exact errorImpliesZero_reject env _
      | exact errorImpliesZero_Process env buf _ _
  · unfold Extract
    split_ifs <;>
      first
      | exact errorImpliesZero_reject env _
      | exact errorImpliesZero_Process env buf _ _
  · unfold Crop
    split_ifs <;>
      first
      | exact errorImpliesZero_reject env _
      | exact errorImpliesZero_Process env buf _ _
  · unfold Rotate
    split_ifs <;>
      first
      | exact errorImpliesZero_reject env _
      | exact errorImpliesZero_Process env buf _ _
  · exact errorImpliesZero_Process env buf _ _
  · exact errorImpliesZero_Process env buf _ _
  · unfold Thumbnail
    split_ifs <;>
      first
      | exact errorImpliesZero_reject env _
      | exact errorImpliesZero_Process env buf _ _
  · unfold Zoom
    split_ifs <;>
      first
      | exact errorImpliesZero_reject env _
      | exact errorImpliesZero_Process env buf _ _
  · unfold Convert
    split_ifs <;>
      first
      | exact errorImpliesZero_reject env _
      | exact errorImpliesZero_Process env buf _ _
  · unfold Watermark
    split_ifs <;>
      first
      | exact errorImpliesZero_reject env _
      | exact errorImpliesZero_Process env buf _ _

/-- C9 (witness): the metadata reader fails with "no image"; Info returns the
BadRequest error with the "application/json" Image, while Resize on an engine
error returns the zero Image. -/
theorem error_results_witness :
    (Info (sampleEnv (.returned (.error (.external "corrupt")))
        (.returned (.error (.external "no image"))) .uploaded) [7] { Width := 10 }).outcome =
      .returned ({ Body := [], Mime := "application/json" },
        some (NewError "Cannot retrieve image medatata: %sno image" 1)) ∧
    ∀ img, (Resize (sampleEnv (.returned (.error (.external "corrupt")))
        (.returned (.error (.external "no image"))) .uploaded) [7] { Width := 10 }).outcome =
      .returned (img, some (.external "corrupt")) → img = {} :=
  ⟨(error_results (sampleEnv (.returned (.error (.external "corrupt")))
        (.returned (.error (.external "no image"))) .uploaded) [7] { Width := 10 }).1 _ rfl,
   fun img => (error_results (sampleEnv (.returned (.error (.external "corrupt")))
        (.returned (.error (.external "no image"))) .uploaded) [7] { Width := 10 }).2.2.1 img _⟩

/-! ## Persistence -/

theorem buildSave_of_both (o : ImageOptions) (h : o.BucketName ≠ "" ∧ o.ImageName ≠ "") :
    buildSave o = { BucketName := o.BucketName, ImageName := o.ImageName } := by
  simp [buildSave, h]

theorem buildSave_of_missing (o : ImageOptions) (h : o.BucketName = "" ∨ o.ImageName = "") :
    buildSave o = {} := by
  have hn : ¬ (o.BucketName ≠ "" ∧ o.ImageName ≠ "") := by
    rintro ⟨hb, hi⟩
    exact h.elim hb hi
  simp only [buildSave, hn, if_false]

theorem buildSave_withoutSave (o : ImageOptions) : buildSave o.withoutSave = {} :=
  buildSave_of_missing _ (Or.inl rfl)

theorem uploadInvocations_Process (env : Env) (buf : Bytes) (opts : Options) (o : ImageOptions) :
    uploadInvocations (Process env buf opts (buildSave o)).trace =
      expectedUploads env o (Process env buf opts (buildSave o)).trace := by
  unfold expectedUploads engineOutput
  rw [engineInvocations_Process]
  cases h : env.bimgResize buf opts with
  | panicked v => simp [Process, processBody, h, uploadInvocations]
  | returned x =>
    cases x with
    | error err => simp [Process, processBody, h, uploadInvocations]
    | ok out =>
      by_cases hs : o.BucketName ≠ "" ∧ o.ImageName ≠ ""
      · rw [buildSave_of_both o hs]
        cases h3 : env.s3 o.BucketName o.ImageName out (env.DetectContentType out) <;>
          simp [Process, processBody, h, hs, uploadToS3, h3, uploadInvocations, Run.after,
            exitErrorf]
      · have hm : o.BucketName = "" ∨ o.ImageName = "" := by
          by_contra hc
          push_neg at hc
          exact hs hc
        rw [buildSave_of_missing o hm]
        simp [Process, processBody, h, hs, uploadInvocations]

theorem uploadInvocations_reject (env : Env) (o : ImageOptions) (msg : String) :
    uploadInvocations (reject env msg).trace = expectedUploads env o (reject env msg).trace :=
  rfl

theorem expectedUploads_of_missing (env : Env) (o : ImageOptions) (tr : List Event)
    (h : o.BucketName = "" ∨ o.ImageName = "") : expectedUploads env o tr = [] := by
  have hn : ¬ (o.BucketName ≠ "" ∧ o.ImageName ≠ "") := by
    rintro ⟨hb, hi⟩
    exact h.elim hb hi
  unfold expectedUploads
  cases engineOutput env tr <;> simp [hn]

theorem uploadInvocations_op (env : Env) (buf : Bytes) (o : ImageOptions)
    (op : Env → Bytes → ImageOptions → Run Result) (hop : op ∈ persistenceOps) :
    uploadInvocations (op env buf o).trace = expectedUploads env o (op env buf o).trace := by
  simp only [persistenceOps, List.mem_cons, List.mem_singleton, List.mem_nil_iff, or_false] at hop
  rcases hop with rfl | rfl | rfl | rfl | rfl | rfl | rfl | rfl | rfl | rfl | rfl
  · unfold Resize
    split_ifs <;>
      first
      | exact uploadInvocations_reject env o _
      | (have hp := uploadInvocations_Process env buf
            { env.BimgOptions o with Embed := true, Crop := true } o
         simpa [Run.after, uploadInvocations, expectedUploads, engineOutput, engineInvocations,
           Event.isEngineCall] using hp)
      | (have hp := uploadInvocations_Process env buf { env.BimgOptions o with Embed := true } o
         simpa [Run.after, uploadInvocations, expectedUploads, engineOutput, engineInvocations,
           Event.isEngineCall] using hp)
  · unfold Enlarge
    split_ifs <;>
      first
      | exact uploadInvocations_reject env o _
      | exact uploadInvocations_Process env buf _ o
  · unfold Extract
    split_ifs <;>
      first
      | exact uploadInvocations_reject env o _
      | exact uploadInvocations_Process env buf _ o
  · unfold Crop
    split_ifs <;>
      first
      | exact uploadInvocations_reject env o _
      | exact uploadInvocations_Process env buf _ o
  · unfold Rotate
    split_ifs <;>
      first
      | exact uploadInvocations_reject env o _
      | exact uploadInvocations_Process env buf _ o
  · exact uploadInvocations_Process env buf _ o
  · exact uploadInvocations_Process env buf _ o
  · unfold Thumbnail
    split_ifs <;>
      first
      | exact uploadInvocations_reject env o _
      | exact uploadInvocations_Process env buf _ o
  · unfold Zoom
    split_ifs <;>
      first
      | exact uploadInvocations_reject env o _
      | exact uploadInvocations_Process env buf _ o
  · unfold Convert
    split_ifs <;>
      first
      | exact uploadInvocations_reject env o _
      | exact uploadInvocations_Process env buf _ o
  · unfold Watermark
    split_ifs <;>
      first
      | exact uploadInvocations_reject env o _
      | exact uploadInvocations_Process env buf _ o

theorem outcome_withoutSave (env : Env) (buf : Bytes) (o : ImageOptions)
    (op : Env → Bytes → ImageOptions → Run Result) (hop : op ∈ persistenceOps)
    (hm : o.BucketName = "" ∨ o.ImageName = "")
    (hb : env.BimgOptions o.withoutSave = env.BimgOptions o) :
    (op env buf o).outcome = (op env buf o.withoutSave).outcome := by
  simp only [persistenceOps, List.mem_cons, List.mem_singleton, List.mem_nil_iff, or_false] at hop
  rcases hop with rfl | rfl | rfl | rfl | rfl | rfl | rfl | rfl | rfl | rfl | rfl
  · simp only [Resize, hb, buildSave_withoutSave, buildSave_of_missing o hm]
    simp only [ImageOptions.withoutSave]
    split_ifs <;> rfl
  · simp only [Enlarge, hb, buildSave_withoutSave, buildSave_of_missing o hm]
    rfl
  · simp only [Extract, hb, buildSave_withoutSave, buildSave_of_missing o hm]
    rfl
  · simp only [Crop, hb, buildSave_withoutSave, buildSave_of_missing o hm]
    rfl
  · simp only [Rotate, hb, buildSave_withoutSave, buildSave_of_missing o hm]
    rfl
  · simp only [Flip, hb, buildSave_withoutSave, buildSave_of_missing o hm]
  · simp only [Flop, hb, buildSave_withoutSave, buildSave_of_missing o hm]
  · simp only [Thumbnail, hb, buildSave_withoutSave, buildSave_of_missing o hm]
    rfl
  · simp only [Zoom, hb, buildSave_withoutSave, buildSave_of_missing o hm]
    rfl
  · simp only [Convert, hb, buildSave_withoutSave, buildSave_of_missing o hm]
    rfl
  · simp only [Watermark, hb, buildSave_withoutSave, buildSave_of_missing o hm]
    rfl

/-- C10: for every persistence-capable operation and every input, uploadToS3 is
called exactly once, with the engine's output buffer and the given bucket and
object name, if the engine succeeded and both bucket and object name are
non-empty, and is not called at all otherwise; when either one is empty no
upload occurs and, the generic builder BimgOptions not reading the two names,
the returned (Image, error) is the same as with neither set. -/
theorem persistence_directive (env : Env) (buf : Bytes) (o : ImageOptions)
    (op : Env → Bytes → ImageOptions → Run Result) (hop : op ∈ persistenceOps) :
    uploadInvocations (op env buf o).trace = expectedUploads env o (op env buf o).trace ∧
    ((o.BucketName = "" ∨ o.ImageName = "") →
      uploadInvocations (op env buf o).trace = [] ∧
      (env.BimgOptions o.withoutSave = env.BimgOptions o →
        (op env buf o).outcome = (op env buf o.withoutSave).outcome)) := by
  refine ⟨uploadInvocations_op env buf o op hop, fun hm => ⟨?_, fun hb => ?_⟩⟩
  · rw [uploadInvocations_op env buf o op hop]
    exact expectedUploads_of_missing env o _ hm
  · exact outcome_withoutSave env buf o op hop hm hb

/-- C10 (witness): Resize with a succeeding engine.  With only the bucket set no
upload is made and the result equals the one with neither name set; with both
set the engine's output is uploaded once under that bucket and name. -/
theorem persistence_directive_witness :
    (uploadInvocations
        (Resize (sampleEnv (.returned (.ok [1, 2])) (.panicked (.other 0)) .uploaded) [7]
          { Width := 10, BucketName := "bucket" }).trace = [] ∧
      (Resize (sampleEnv (.returned (.ok [1, 2])) (.panicked (.other 0)) .uploaded) [7]
          { Width := 10, BucketName := "bucket" }).outcome =
        (Resize (sampleEnv (.returned (.ok [1, 2])) (.panicked (.other 0)) .uploaded) [7]
          { Width := 10 }).outcome) ∧
    uploadInvocations
        (Resize (sampleEnv (.returned (.ok [1, 2])) (.panicked (.other 0)) .uploaded) [7]
          { Width := 10, BucketName := "bucket", ImageName := "name" }).trace =
      [("bucket", "name", [1, 2])] :=
  ⟨⟨((persistence_directive _ [7] { Width := 10, BucketName := "bucket" } Resize
        (List.mem_cons_self _ _)).2 (Or.inr rfl)).1,
    ((persistence_directive _ [7] { Width := 10, BucketName := "bucket" } Resize
        (List.mem_cons_self _ _)).2 (Or.inr rfl)).2 rfl⟩,
   ((persistence_directive _ [7] { Width := 10, BucketName := "bucket", ImageName := "name" }
        Resize (List.mem_cons_self _ _)).1).trans (by decide)⟩

/-! ## Recovery and error propagation in `Process` -/

/-- C11 (counterexample): the engine panics with nil, so `recover()` reports
nil and the deferred function does nothing; Process returns the zero Image with
a nil error, not a non-nil one. -/
theorem nil_panic_returns_no_error :
    (Process (sampleEnv (.panicked .nil) (.panicked (.other 0)) .uploaded) [1] {}
        { BucketName := "bucket", ImageName := "name" }).outcome = .returned ({}, none) ∧
    ¬ ∃ err, (Process (sampleEnv (.panicked .nil) (.panicked (.other 0)) .uploaded) [1] {}
        { BucketName := "bucket", ImageName := "name" }).outcome = .returned ({}, some err) := by
  refine ⟨by decide, ?_⟩
  rintro ⟨err, he⟩
  have hn : (Process (sampleEnv (.panicked .nil) (.panicked (.other 0)) .uploaded) [1] {}
      { BucketName := "bucket", ImageName := "name" }).outcome = .returned ({}, none) := by
    decide
  rw [hn] at he
  cases he

/-- C11 (amended): when the engine call panics, Process does not let the panic
through and makes no upload.  With a non-nil panic value it returns the zero
Image and a non-nil error, and when that value is itself an error it returns
that same error; with a nil panic value it returns the zero Image and a nil
error. -/
theorem Process_recovers_panic (env : Env) (buf : Bytes) (opts : Options) (sv : save)
    (v : PanicValue) (h : env.bimgResize buf opts = .panicked v) :
    (v ≠ .nil → (Process env buf opts sv).outcome = .returned ({}, some (recovered v))) ∧
    (v = .nil → (Process env buf opts sv).outcome = .returned ({}, none)) ∧
    uploadInvocations (Process env buf opts sv).trace = [] ∧
    (∀ e, v = .error e → (Process env buf opts sv).outcome = .returned ({}, some e)) := by
  have ho : (Process env buf opts sv).outcome = .returned (deferred v) := by
    simp [Process, processBody, h]
  refine ⟨fun hv => ?_, fun hv => ?_, ?_, ?_⟩
  · rw [ho]
    simp [deferred, hv]
  · rw [ho]
    simp [deferred, hv]
  · simp [Process, processBody, h, uploadInvocations]
  · rintro e rfl
    rw [ho]
    simp [deferred, recovered]

/-- C11 (witness): the engine panics with an error value while a bucket and an
object name are set; Process returns that error with the zero Image and the
trace holds the engine call only. -/
theorem Process_recovers_panic_witness :
    (Process (sampleEnv (.panicked (.error (.external "vips crashed")))
        (.panicked (.other 0)) .uploaded) [1] {}
        { BucketName := "bucket", ImageName := "name" }).outcome =
      .returned ({}, some (.external "vips crashed")) ∧
    uploadInvocations (Process (sampleEnv (.panicked (.error (.external "vips crashed")))
        (.panicked (.other 0)) .uploaded) [1] {}
        { BucketName := "bucket", ImageName := "name" }).trace = [] :=
  ⟨(Process_recovers_panic _ [1] {} { BucketName := "bucket", ImageName := "name" }
      (.error (.external "vips crashed")) rfl).2.2.2 _ rfl,
   (Process_recovers_panic _ [1] {} { BucketName := "bucket", ImageName := "name" }
      (.error (.external "vips crashed")) rfl).2.2.1⟩

/-- C12 (counterexample): two engine panics with different strings give errors
with different messages, and a string panic and an integer panic give different
messages too. -/
theorem string_panics_keep_their_message :
    (Process (sampleEnv (.panicked (.string "out of memory")) (.panicked (.other 0)) .uploaded)
        [1] {} {}).errorMessage = some "out of memory" ∧
    (Process (sampleEnv (.panicked (.string "bad header")) (.panicked (.other 0)) .uploaded)
        [1] {} {}).errorMessage = some "bad header" ∧
    (Process (sampleEnv (.panicked (.other 7)) (.panicked (.other 0)) .uploaded)
        [1] {} {}).errorMessage = some "libvips internal error" ∧
    (Process (sampleEnv (.panicked (.string "out of memory")) (.panicked (.other 0)) .uploaded)
        [1] {} {}).errorMessage ≠
      (Process (sampleEnv (.panicked (.string "bad header")) (.panicked (.other 0)) .uploaded)
        [1] {} {}).errorMessage ∧
    (Process (sampleEnv (.panicked (.string "out of memory")) (.panicked (.other 0)) .uploaded)
        [1] {} {}).errorMessage ≠
      (Process (sampleEnv (.panicked (.other 7)) (.panicked (.other 0)) .uploaded)
        [1] {} {}).errorMessage := by
  decide

/-- C12 (amended): when the engine panics with a string, Process returns the
zero Image and an error whose message is that string; when it panics with a
value that is neither an error nor a string, Process returns the zero Image and
the one generic error "libvips internal error", whatever the value. -/
theorem Process_recovers_non_error (env : Env) (buf : Bytes) (opts : Options) (sv : save) :
    (∀ s, env.bimgResize buf opts = .panicked (.string s) →
      (Process env buf opts sv).outcome = .returned ({}, some (.errorsNew s)) ∧
      (Process env buf opts sv).errorMessage = some s) ∧
    (∀ n, env.bimgResize buf opts = .panicked (.other n) →
      (Process env buf opts sv).outcome =
        .returned ({}, some (.errorsNew "libvips internal error")) ∧
      (Process env buf opts sv).errorMessage = some "libvips internal error") := by
  constructor
  · intro s h
    simp [Process, processBody, h, deferred, recovered, Run.errorMessage, GoError.Error]
  · intro n h
    simp [Process, processBody, h, deferred, recovered, Run.errorMessage, GoError.Error]

/-- C12 (witness): an integer panic gives the generic message. -/
theorem Process_recovers_non_error_witness :
    (Process (sampleEnv (.panicked (.other 7)) (.panicked (.other 0)) .uploaded)
        [1] {} {}).errorMessage = some "libvips internal error" :=
  ((Process_recovers_non_error _ [1] {} {}).2 7 rfl).2

/-- C13: when the engine returns an ordinary error, Process returns that same
error with the zero Image, and uploadToS3 is never called, also when both the
bucket and the object name are set. -/
theorem Process_engine_error (env : Env) (buf : Bytes) (opts : Options) (sv : save)
    (err : GoError) (h : env.bimgResize buf opts = .returned (.error err)) :
    (Process env buf opts sv).outcome = .returned ({}, some err) ∧
    uploadInvocations (Process env buf opts sv).trace = [] := by
  constructor
  · simp [Process, processBody, h]
  · simp [Process, processBody, h, uploadInvocations]

/-- C13 (witness): the engine reports a corrupt image while a bucket and an
object name are set. -/
theorem Process_engine_error_witness :
    (Process (sampleEnv (.returned (.error (.external "corrupt image")))
        (.panicked (.other 0)) .uploaded) [1] {}
        { BucketName := "bucket", ImageName := "name" }).outcome =
      .returned ({}, some (.external "corrupt image")) ∧
    uploadInvocations (Process (sampleEnv (.returned (.error (.external "corrupt image")))
        (.panicked (.other 0)) .uploaded) [1] {}
        { BucketName := "bucket", ImageName := "name" }).trace = [] :=
  Process_engine_error _ [1] {} { BucketName := "bucket", ImageName := "name" }
    (.external "corrupt image") rfl

theorem Process_outcome_ok (env : Env) (buf : Bytes) (opts : Options) (sv : save) (out : Bytes)
    (h : env.bimgResize buf opts = .returned (.ok out)) (hup : uploadReturns env sv out) :
    (Process env buf opts sv).outcome =
      .returned ({ Body := out,
                   Mime := env.GetImageMimeType (env.bimgDetermineImageType out) }, none) := by
  by_cases hs : sv.BucketName ≠ "" ∧ sv.ImageName ≠ ""
  · have h3 : env.s3 sv.BucketName sv.ImageName out (env.DetectContentType out) = .uploaded :=
      hup.resolve_left (fun hn => hn hs)
    simp [Process, processBody, h, hs, uploadToS3, h3]
  · simp [Process, processBody, h, hs]

/-- C14: when the engine succeeds and the upload, if any, returns, Process
returns a nil error and the Image whose Body is the engine's output buffer and
whose Mime is GetImageMimeType(DetermineImageType(output)); hence any other
call of Process whose engine output is the same buffer returns the same Image,
whatever its input buffer, descriptor and directive. -/
theorem Process_success (env : Env) (buf : Bytes) (opts : Options) (sv : save) (out : Bytes)
    (h : env.bimgResize buf opts = .returned (.ok out)) (hup : uploadReturns env sv out) :
    (Process env buf opts sv).outcome =
      .returned ({ Body := out,
                   Mime := env.GetImageMimeType (env.bimgDetermineImageType out) }, none) ∧
    ∀ buf2 opts2 sv2, env.bimgResize buf2 opts2 = .returned (.ok out) →
      uploadReturns env sv2 out →
      (Process env buf2 opts2 sv2).outcome = (Process env buf opts sv).outcome := by
  refine ⟨Process_outcome_ok env buf opts sv out h hup, fun buf2 opts2 sv2 h2 hup2 => ?_⟩
  rw [Process_outcome_ok env buf opts sv out h hup,
    Process_outcome_ok env buf2 opts2 sv2 out h2 hup2]

/-- C14 (witness): the engine returns the buffer [1, 2] and the store accepts
the upload; the result carries that buffer and the MIME type detected from it,
and a call with another descriptor and no directive returns the same Image. -/
theorem Process_success_witness :
    (Process (sampleEnv (.returned (.ok [1, 2])) (.panicked (.other 0)) .uploaded) [7] {}
        { BucketName := "bucket", ImageName := "name" }).outcome =
      .returned ({ Body := [1, 2], Mime := "image/jpeg" }, none) ∧
    (Process (sampleEnv (.returned (.ok [1, 2])) (.panicked (.other 0)) .uploaded) [8]
        { Width := 3, Crop := true } {}).outcome =
      (Process (sampleEnv (.returned (.ok [1, 2])) (.panicked (.other 0)) .uploaded) [7] {}
        { BucketName := "bucket", ImageName := "name" }).outcome :=
  ⟨(Process_success _ [7] {} { BucketName := "bucket", ImageName := "name" } [1, 2] rfl
      (Or.inr rfl)).1,
   (Process_success _ [7] {} { BucketName := "bucket", ImageName := "name" } [1, 2] rfl
      (Or.inr rfl)).2 [8] { Width := 3, Crop := true } {} rfl (Or.inl (by decide))⟩

/-! ## Descriptors handed to the engine -/

/-- C15: when at least one of width and height is non-zero, Resize calls the
engine once, with BimgOptions(options) changed in embed (enabled) and, when
noCrop is false, in crop (enabled), and in no other field; embed is enabled
also when noCrop is true. -/
theorem Resize_descriptor (env : Env) (buf : Bytes) (o : ImageOptions)
    (hv : ¬ (o.Width = 0 ∧ o.Height = 0)) :
    (o.NoCrop = false →
      engineInvocations (Resize env buf o).trace =
        [Event.engine buf { env.BimgOptions o with Embed := true, Crop := true }]) ∧
    (o.NoCrop = true →
      engineInvocations (Resize env buf o).trace =
        [Event.engine buf { env.BimgOptions o with Embed := true }]) := by
  have hpre : engineInvocations
      [Event.println ["Bucket Name - ", o.BucketName], Event.println [o.BucketName],
        Event.println [o.ImageName]] = [] := by
    simp [engineInvocations, Event.isEngineCall]
  constructor
  · intro hc
    simp only [Resize, hv, hc, if_true, if_false]
    rw [engineInvocations_after _ _ hpre, engineInvocations_Process]
  · intro hc
    simp only [Resize, hv, if_false]
    rw [engineInvocations_after _ _ hpre, engineInvocations_Process]
    simp [hc]

/-- C15 (witness): Resize with width = 100, height = 0 and noCrop = false. -/
theorem Resize_descriptor_witness :
    engineInvocations (Resize (sampleEnv (.returned (.ok [1, 2])) (.panicked (.other 0))
        .uploaded) [7] { Width := 100 }).trace =
      [Event.engine [7] { Width := 100, Embed := true, Crop := true }] :=
  (Resize_descriptor _ [7] { Width := 100 } (by decide)).1 rfl

/-- C16 (counterexample): with a builder that leaves the crop flag off, Crop
with noCrop = true still hands the engine a descriptor with crop enabled, and
Thumbnail with noCrop = false hands it one with crop not enabled. -/
theorem crop_flag_of_Crop_and_Thumbnail :
    engineInvocations (Crop (sampleEnv (.returned (.ok [1, 2])) (.panicked (.other 0))
        .uploaded) [7] { Width := 10, NoCrop := true }).trace =
      [Event.engine [7] { Width := 10, Crop := true }] ∧
    engineInvocations (Thumbnail (sampleEnv (.returned (.ok [1, 2])) (.panicked (.other 0))
        .uploaded) [7] { Width := 10, NoCrop := false }).trace =
      [Event.engine [7] { Width := 10, Crop := false }] := by
  decide

/-- C16 (amended): taking BimgOptions to leave the crop flag off, and for
options that pass validation: the descriptor Resize and Enlarge hand to the
engine has crop enabled when noCrop is false and not enabled when noCrop is
true; the descriptor of Crop has crop enabled whatever noCrop is; the descriptor
of Thumbnail is BimgOptions(options) unchanged, with crop not enabled, whatever
noCrop is. -/
theorem crop_flag (env : Env) (buf : Bytes) (o : ImageOptions)
    (hB : (env.BimgOptions o).Crop = false) :
    (¬ (o.Width = 0 ∧ o.Height = 0) →
      ∃ d, engineInvocations (Resize env buf o).trace = [Event.engine buf d] ∧
        d.Crop = !o.NoCrop) ∧
    (¬ (o.Width = 0 ∨ o.Height = 0) →
      ∃ d, engineInvocations (Enlarge env buf o).trace = [Event.engine buf d] ∧
        d.Crop = !o.NoCrop) ∧
    (¬ (o.Width = 0 ∧ o.Height = 0) →
      ∃ d, engineInvocations (Crop env buf o).trace = [Event.engine buf d] ∧
        d.Crop = true) ∧
    (¬ (o.Width = 0 ∧ o.Height = 0) →
      engineInvocations (Thumbnail env buf o).trace = [Event.engine buf (env.BimgOptions o)] ∧
        (env.BimgOptions o).Crop = false) := by
  refine ⟨fun hv => ?_, fun hv => ?_, fun hv => ?_, fun hv => ?_⟩
  · have hpre : engineInvocations
        [Event.println ["Bucket Name - ", o.BucketName], Event.println [o.BucketName],
          Event.println [o.ImageName]] = [] := by
      simp [engineInvocations, Event.isEngineCall]
    simp only [Resize, hv, if_false]
    rw [engineInvocations_after _ _ hpre, engineInvocations_Process]
    refine ⟨_, rfl, ?_⟩
    cases hc : o.NoCrop <;> simp [hB]
  · simp only [Enlarge, hv, if_false]
    rw [engineInvocations_Process]
    refine ⟨_, rfl, ?_⟩
    cases hc : o.NoCrop <;> simp [hB]
  · simp only [Crop, hv, if_false]
    rw [engineInvocations_Process]
    exact ⟨_, rfl, rfl⟩
  · simp only [Thumbnail, hv, if_false]
    rw [engineInvocations_Process]
    exact ⟨rfl, hB⟩

/-- C16 (witness): Enlarge with noCrop = true and a builder that leaves crop
off hands the engine a descriptor with crop not enabled. -/
theorem crop_flag_witness :
    ∃ d, engineInvocations (Enlarge (sampleEnv (.returned (.ok [1, 2])) (.panicked (.other 0))
        .uploaded) [7] { Width := 10, Height := 5, NoCrop := true }).trace =
      [Event.engine [7] d] ∧ d.Crop = false :=
  (crop_flag (sampleEnv (.returned (.ok [1, 2])) (.panicked (.other 0)) .uploaded) [7]
    { Width := 10, Height := 5, NoCrop := true } rfl).2.1 (by decide)

/-- C17: Info never calls the transform engine or uploadToS3; when metadata
extraction succeeds it returns a nil error and the Image whose Mime is
"application/json" and whose Body is the JSON serialization of the record whose
width, height, type, space, hasAlpha, hasProfile, channels and orientation are
copied from the engine's metadata. -/
theorem Info_reports_metadata (env : Env) (buf : Bytes) (o : ImageOptions) :
    transformInvocations (Info env buf o).trace = [] ∧
    uploadInvocations (Info env buf o).trace = [] ∧
    ∀ md, env.bimgMetadata buf = .returned (.ok md) →
      (Info env buf o).outcome =
        .returned ({ Body := env.jsonMarshal
                       { Width := md.SizeWidth, Height := md.SizeHeight, Type_ := md.Type_,
                         Space := md.Space, Alpha := md.Alpha, Profile := md.Profile,
                         Channels := md.Channels, Orientation := md.Orientation },
                     Mime := "application/json" }, none) := by
  refine ⟨?_, ?_, fun md h => ?_⟩
  · cases h : env.bimgMetadata buf with
    | panicked v => simp [Info, h, transformInvocations]
    | returned x => cases x <;> simp [Info, h, transformInvocations]
  · cases h : env.bimgMetadata buf with
    | panicked v => simp [Info, h, uploadInvocations]
    | returned x => cases x <;> simp [Info, h, uploadInvocations]
  · simp [Info, h]

/-- C17 (witness): metadata of a 64 x 48 image; Info answers with the record
serialized (here to the two bytes 64 and 48) as "application/json". -/
theorem Info_reports_metadata_witness :
    (Info (sampleEnv (.returned (.ok [1, 2]))
        (.returned (.ok { SizeWidth := 64, SizeHeight := 48, Type_ := "jpeg", Space := "srgb",
                          Alpha := false, Profile := false, Channels := 3, Orientation := 1 }))
        .uploaded) [7] {}).outcome =
      .returned ({ Body := [64, 48], Mime := "application/json" }, none) :=
  (Info_reports_metadata (sampleEnv (.returned (.ok [1, 2]))
        (.returned (.ok { SizeWidth := 64, SizeHeight := 48, Type_ := "jpeg", Space := "srgb",
                          Alpha := false, Profile := false, Channels := 3, Orientation := 1 }))
        .uploaded) [7] {}).2.2 _ rfl

/-- C18: for options with factor ≠ 0 that pass Zoom's validation, the descriptor
handed to the engine has zoom = factor; when top > 0 or left > 0 its top, left,
area-width and area-height are the options' values and crop is enabled when
noCrop is false; when top ≤ 0 and left ≤ 0 every field but zoom, the region and
crop included, is that of BimgOptions(options), whatever the area fields are. -/
theorem Zoom_descriptor (env : Env) (buf : Bytes) (o : ImageOptions) (hf : o.Factor ≠ 0) :
    ((o.Top > 0 ∨ o.Left > 0) → ¬ (o.AreaWidth = 0 ∧ o.AreaHeight = 0) →
      engineInvocations (Zoom env buf o).trace =
        [Event.engine buf
          { env.BimgOptions o with
            Top := o.Top, Left := o.Left, AreaWidth := o.AreaWidth, AreaHeight := o.AreaHeight,
            Crop := if o.NoCrop = false then true else (env.BimgOptions o).Crop,
            Zoom := o.Factor }]) ∧
    (o.Top ≤ 0 → o.Left ≤ 0 →
      engineInvocations (Zoom env buf o).trace =
        [Event.engine buf { env.BimgOptions o with Zoom := o.Factor }]) := by
  constructor
  · intro hoff ha
    simp only [Zoom, hf, hoff, ha, if_true, if_false]
    rw [engineInvocations_Process]
    by_cases hc : o.NoCrop = false <;> simp [hc]
  · intro ht hl
    have hoff : ¬ (o.Top > 0 ∨ o.Left > 0) := by
      rintro (h | h) <;> omega
    simp only [Zoom, hf, hoff, if_false]
    rw [engineInvocations_Process]

/-- C18 (witness): Zoom by 2 with top = 5 and a 30 x 20 area copies the region
and enables crop; with top = 0 and left = 0 the same area is not copied. -/
theorem Zoom_descriptor_witness :
    engineInvocations (Zoom (sampleEnv (.returned (.ok [1, 2])) (.panicked (.other 0))
        .uploaded) [7] { Factor := 2, Top := 5, AreaWidth := 30, AreaHeight := 20 }).trace =
      [Event.engine [7]
        { Top := 5, AreaWidth := 30, AreaHeight := 20, Crop := true, Zoom := 2 }] ∧
    engineInvocations (Zoom (sampleEnv (.returned (.ok [1, 2])) (.panicked (.other 0))
        .uploaded) [7] { Factor := 2, AreaWidth := 30, AreaHeight := 20 }).trace =
      [Event.engine [7] { Zoom := 2 }] :=
  ⟨(Zoom_descriptor _ [7] { Factor := 2, Top := 5, AreaWidth := 30, AreaHeight := 20 }
      (by decide)).1 (Or.inl (by decide)) (by decide),
   (Zoom_descriptor _ [7] { Factor := 2, AreaWidth := 30, AreaHeight := 20 }
      (by decide)).2 (by decide) (by decide)⟩

/-- C19: for options with non-empty text, the descriptor Watermark hands to the
engine is BimgOptions(options) outside the watermark part; its watermark part
carries text, font, DPI, margin, width (the text width), opacity and
no-replicate of the options; with a color list of at least three components
the watermark background is its first three components, and with fewer than
three the background is the one BimgOptions produced. -/
theorem Watermark_descriptor (env : Env) (buf : Bytes) (o : ImageOptions) (ht : o.Text ≠ "") :
    ∃ d, engineInvocations (Watermark env buf o).trace = [Event.engine buf d] ∧
      { d with Watermark := (env.BimgOptions o).Watermark } = env.BimgOptions o ∧
      d.Watermark.Text = o.Text ∧ d.Watermark.Font = o.Font ∧ d.Watermark.DPI = o.DPI ∧
      d.Watermark.Margin = o.Margin ∧ d.Watermark.Width = o.TextWidth ∧
      d.Watermark.Opacity = o.Opacity ∧ d.Watermark.NoReplicate = o.NoReplicate ∧
      (∀ r g b rest, o.Color = r :: g :: b :: rest →
        d.Watermark.Background = { R := r, G := g, B := b }) ∧
      (o.Color.length ≤ 2 →
        d.Watermark.Background = (env.BimgOptions o).Watermark.Background) := by
  simp only [Watermark, ht, if_false]
  rw [engineInvocations_Process]
  refine ⟨_, rfl, rfl, ?_, ?_, ?_, ?_, ?_, ?_, ?_, ?_, ?_⟩
  · split_ifs <;> rfl
  · split_ifs <;> rfl
  · split_ifs <;> rfl
  · split_ifs <;> rfl
  · split_ifs <;> rfl
  · split_ifs <;> rfl
  · split_ifs <;> rfl
  · intro r g b rest hcol
    have hlen : o.Color.length > 2 := by simp [hcol]
    simp only [hlen, dite_true]
    simp [hcol]
  · intro hlen
    have hn : ¬ o.Color.length > 2 := by omega
    simp only [hn, dite_false]

/-- C19 (witness): a four-component color sets the background to its first
three components, and a two-component color leaves the background untouched. -/
theorem Watermark_descriptor_witness :
    (∃ d, engineInvocations (Watermark (sampleEnv (.returned (.ok [1, 2]))
        (.panicked (.other 0)) .uploaded) [7]
        { Text := "hello", Color := [10, 20, 30, 40] }).trace = [Event.engine [7] d] ∧
      d.Watermark.Text = "hello" ∧ d.Watermark.Background = { R := 10, G := 20, B := 30 }) ∧
    (∃ d, engineInvocations (Watermark (sampleEnv (.returned (.ok [1, 2]))
        (.panicked (.other 0)) .uploaded) [7]
        { Text := "hello", Color := [10, 20] }).trace = [Event.engine [7] d] ∧
      d.Watermark.Background = { R := 0, G := 0, B := 0 }) := by
  constructor
  · obtain ⟨d, hd, -, htext, -, -, -, -, -, -, hbg, -⟩ :=
      Watermark_descriptor (sampleEnv (.returned (.ok [1, 2])) (.panicked (.other 0)) .uploaded)
        [7] { Text := "hello", Color := [10, 20, 30, 40] } (by decide)
    exact ⟨d, hd, htext, hbg 10 20 30 [40] rfl⟩
  · obtain ⟨d, hd, -, -, -, -, -, -, -, -, -, hbg⟩ :=
      Watermark_descriptor (sampleEnv (.returned (.ok [1, 2])) (.panicked (.other 0)) .uploaded)
        [7] { Text := "hello", Color := [10, 20] } (by decide)
    exact ⟨d, hd, hbg (by decide)⟩

/-- C20: the required-field checks compare with zero only.  With a negative
width or a negative height, Resize, Crop and Thumbnail pass validation and are
delegated to Process, which calls the engine exactly once; the descriptor then
carries the options' width and height, the negative one included, when
BimgOptions copies the two dimensions.  Zoom with factor ≠ 0, top ≤ 0 and
left ≤ 0 is never rejected for a missing area and hands the engine
BimgOptions(options) with only zoom changed, the region not copied. -/
theorem negative_values_are_supplied (env : Env) (buf : Bytes) (o : ImageOptions) :
    ((o.Width < 0 ∨ o.Height < 0) →
      ((Resize env buf o).delegated env buf o ∧ (Crop env buf o).delegated env buf o ∧
        (Thumbnail env buf o).delegated env buf o) ∧
      ((env.BimgOptions o).Width = o.Width → (env.BimgOptions o).Height = o.Height →
        (Resize env buf o).handsDimensions buf o ∧ (Crop env buf o).handsDimensions buf o ∧
          (Thumbnail env buf o).handsDimensions buf o)) ∧
    (o.Factor ≠ 0 → o.Top ≤ 0 → o.Left ≤ 0 →
      (Zoom env buf o).delegated env buf o ∧
      engineInvocations (Zoom env buf o).trace =
        [Event.engine buf { env.BimgOptions o with Zoom := o.Factor }]) := by
  constructor
  · intro hneg
    have hv : ¬ (o.Width = 0 ∧ o.Height = 0) := by
      rintro ⟨hw, hh⟩
      omega
    have hpre : engineInvocations
        [Event.println ["Bucket Name - ", o.BucketName], Event.println [o.BucketName],
          Event.println [o.ImageName]] = [] := by
      simp [engineInvocations, Event.isEngineCall]
    refine ⟨⟨?_, ?_, ?_⟩, fun hW hH => ⟨?_, ?_, ?_⟩⟩
    · simp only [Resize, hv, if_false]
      exact delegated_after_Process env buf o _ _ hpre
    · simp only [Crop, hv, if_false]
      exact delegated_Process env buf o _
    · simp only [Thumbnail, hv, if_false]
      exact delegated_Process env buf o _
    · simp only [Run.handsDimensions, Resize, hv, if_false]
      rw [engineInvocations_after _ _ hpre, engineInvocations_Process]
      refine ⟨_, rfl, ?_, ?_⟩ <;> split_ifs <;> assumption
    · simp only [Run.handsDimensions, Crop, hv, if_false]
      rw [engineInvocations_Process]
      exact ⟨_, rfl, hW, hH⟩
    · simp only [Run.handsDimensions, Thumbnail, hv, if_false]
      rw [engineInvocations_Process]
      exact ⟨_, rfl, hW, hH⟩
  · intro hf ht hl
    have hoff : ¬ (o.Top > 0 ∨ o.Left > 0) := by
      rintro (h | h) <;> omega
    simp only [Zoom, hf, hoff, if_false]
    exact ⟨delegated_Process env buf o _, engineInvocations_Process env buf _ _⟩

/-- C20 (witness): Resize with width = -5 reaches the engine with width -5 in
the descriptor, and Zoom by 2 with top = -3, left = 0 and no area reaches the
engine without a region. -/
theorem negative_values_are_supplied_witness :
    (Resize (sampleEnv (.returned (.ok [1, 2])) (.panicked (.other 0)) .uploaded) [7]
        { Width := -5 }).handsDimensions [7] { Width := -5 } ∧
    engineInvocations (Zoom (sampleEnv (.returned (.ok [1, 2])) (.panicked (.other 0))
        .uploaded) [7] { Factor := 2, Top := -3 }).trace =
      [Event.engine [7] { Zoom := 2 }] :=
  ⟨(((negative_values_are_supplied _ [7] { Width := -5 }).1 (Or.inl (by decide))).2
      rfl rfl).1,
   ((negative_values_are_supplied _ [7] { Factor := 2, Top := -3 }).2
      (by decide) (by decide) (by decide)).2⟩

end Imaginary
